import Mathlib

/-!
Verification development for the `personal-finance` repository.

The Python sources are shallowly embedded in Lean:

* Python floats are idealised as exact rationals (`ℚ`); the only
  irrational quantity in the code base, the compounding rate conversion
  `(1 + r) ** (1 / 12)` of `investment.py`, is embedded over `ℝ` with
  `Real.rpow`.
* Fallible Python code (division by zero, missing attributes, missing
  dictionary keys) is embedded with `Except PyErr`.
* `round(x, 3)` is embedded as round-half-to-even at three decimals,
  Python's documented rounding mode.

Every definition follows the corresponding function of the source tree
(`src/interest.py`, `src/housing.py`, `src/investment.py`,
`src/BudgetCalculator.py`); console printing and plotting calls in the
source are pure observations and are not modelled.
-/

/-- Decidable equality of `Except` results, for evaluating the embedding on
concrete inputs. -/
instance exceptDecidableEq {e a : Type} [DecidableEq e] [DecidableEq a] :
    DecidableEq (Except e a)
  | .ok x, .ok y => if h : x = y then .isTrue (by rw [h]) else .isFalse (by simp [h])
  | .ok _, .error _ => .isFalse (by simp)
  | .error _, .ok _ => .isFalse (by simp)
  | .error x, .error y => if h : x = y then .isTrue (by rw [h]) else .isFalse (by simp [h])

/-- Python runtime errors that the embedded fragments can raise. -/
inductive PyErr where
  | zeroDivisionError : PyErr
  | attributeError : String → PyErr
  | keyError : String → PyErr
deriving DecidableEq

/-- Round-half-to-even to an integer, the rounding mode of Python's `round`. -/
def roundHalfEven (x : ℚ) : ℤ :=
  if x - ⌊x⌋ < 1/2 then ⌊x⌋
  else if 1/2 < x - ⌊x⌋ then ⌊x⌋ + 1
  else if Even ⌊x⌋ then ⌊x⌋ else ⌊x⌋ + 1

/-- `round(x, 3)` from the source: round to three decimal places. -/
def round3 (x : ℚ) : ℚ := (roundHalfEven (1000 * x) : ℚ) / 1000

/-- Python's `int()` applied to a rational value: truncation toward zero. -/
def int_trunc (x : ℚ) : ℤ := if 0 ≤ x then ⌊x⌋ else -⌊-x⌋

/-- One row of the amortization schedule, as stored (rounded) by
`calculate_ammortization_schedule` in `src/interest.py`. -/
structure AmortRow where
  month : ℕ
  monthly_payment : ℚ
  interest : ℚ
  principal : ℚ
  remaining_balance : ℚ
deriving DecidableEq

/-- The `for i in range(1, int(total_payments) + 1)` loop of
`calculate_ammortization_schedule`: `balance` is carried exactly, the
reported fields are rounded to three decimals. `i` is the month index of
the next row, `k` the number of rows still to produce. -/
def amortLoop (monthly_rate monthly_payment : ℚ) : ℚ → ℕ → ℕ → List AmortRow
  | _, _, 0 => []
  | balance, i, Nat.succ k =>
    let interest := balance * monthly_rate
    let principal_payment := monthly_payment - interest
    let balance2 := balance - principal_payment
    { month := i, monthly_payment := round3 monthly_payment, interest := round3 interest,
      principal := round3 principal_payment, remaining_balance := round3 balance2 } ::
      amortLoop monthly_rate monthly_payment balance2 (i + 1) k

/-- The annuity payment `principal * monthly_rate / (1 - (1 + monthly_rate) ** -n)`
from `src/interest.py` (exponent as an integer; every call site of the
source passes an integral `total_payments`). -/
def annuity_monthly_payment (principal monthly_rate : ℚ) (n : ℤ) : ℚ :=
  principal * monthly_rate / (1 - (1 + monthly_rate) ^ (-n))

/-- `calculate_ammortization_schedule(principal, annual_rate, years)` from
`src/interest.py`.  There is no input validation in the source; the only
failure modes are Python `ZeroDivisionError`s: a zero base raised to a
negative power, and the division by `1 - (1 + monthly_rate) ** -total_payments`
when that denominator is zero (in particular whenever `annual_rate = 0`
and `total_payments > 0`, and whenever `total_payments = 0`).  The local
names of the source, `monthly_rate = annual_rate / 12` and
`total_payments = years * 12`, are inlined. -/
def calculate_ammortization_schedule (principal annual_rate years : ℚ) :
    Except PyErr (List AmortRow) :=
  if 1 + annual_rate / 12 = 0 ∧ 0 < int_trunc (years * 12) then .error .zeroDivisionError
  else if 1 - (1 + annual_rate / 12) ^ (-int_trunc (years * 12)) = 0 then
    .error .zeroDivisionError
  else
    .ok (amortLoop (annual_rate / 12)
      (annuity_monthly_payment principal (annual_rate / 12) (int_trunc (years * 12)))
      principal 1 (int_trunc (years * 12)).toNat)

/-- Exact (unrounded) balance after `k` further months of the loop,
starting from balance `b`: each month `b ↦ b * (1 + monthly_rate) - monthly_payment`. -/
def finalBal (monthly_rate monthly_payment : ℚ) : ℚ → ℕ → ℚ
  | b, 0 => b
  | b, Nat.succ k => finalBal monthly_rate monthly_payment (b * (1 + monthly_rate) - monthly_payment) k

/-- State of `MortgageStrategy` (`src/housing.py`).  Attributes that
`__init__` does not create (`ammortization`, `principal`,
`ammortization_schedule`) are `Option`s, `none` while the Python
attribute does not exist yet. -/
structure MortgageStrategy where
  house_value : ℚ
  down_payment : ℚ
  loan_term_months : ℕ
  loan_interest_rate : ℚ
  property_tax : ℚ
  maintenance_cost : ℚ
  month : ℕ
  ammortization : Option ℚ
  principal : Option ℚ
  ammortization_schedule : Option (List AmortRow)
deriving DecidableEq

/-- `MortgageStrategy.__init__`. -/
def mkMortgage (house_value down_payment : ℚ) (loan_term_months : ℕ)
    (loan_interest_rate property_tax maintenance_cost : ℚ) : MortgageStrategy :=
  { house_value := house_value, down_payment := down_payment,
    loan_term_months := loan_term_months, loan_interest_rate := loan_interest_rate,
    property_tax := property_tax, maintenance_cost := maintenance_cost,
    month := 0, ammortization := none, principal := none, ammortization_schedule := none }

/-- `MortgageStrategy.calculate_housing_cost`:
`self.ammortization + self.property_tax + self.maintenance_cost`
(`AttributeError` if `set_ammortization` has never run). -/
def MortgageStrategy.calculate_housing_cost (s : MortgageStrategy) : Except PyErr ℚ :=
  match s.ammortization with
  | none => .error (.attributeError ("ammortization"))
  | some a => .ok (a + s.property_tax + s.maintenance_cost)

/-- `MortgageStrategy.create_ammortization_schedule`: builds the schedule
from `self.principal`, `self.loan_interest_rate` and
`years = self.loan_term_months / 12`. -/
def MortgageStrategy.create_ammortization_schedule (s : MortgageStrategy) :
    Except PyErr MortgageStrategy :=
  match s.principal with
  | none => .error (.attributeError ("principal"))
  | some p =>
      (calculate_ammortization_schedule p s.loan_interest_rate
        ((s.loan_term_months : ℚ) / 12)).map
        fun rows => { s with ammortization_schedule := some rows }

/-- `MortgageStrategy.set_ammortization`: the month-indexed phase machine
(loan retired / down payment and origination / fixed schedule payment),
incrementing `self.month` at the end. -/
def MortgageStrategy.set_ammortization (s : MortgageStrategy) :
    Except PyErr MortgageStrategy :=
  if s.loan_term_months < s.month then
    .ok { s with ammortization := some 0, month := s.month + 1 }
  else if s.month = 0 then
    let s1 := { s with ammortization := some s.down_payment,
                       principal := some (s.house_value - s.down_payment) }
    s1.create_ammortization_schedule.map fun s2 => { s2 with month := s2.month + 1 }
  else
    match s.ammortization_schedule with
    | none => .error (.attributeError ("ammortization_schedule"))
    | some rows =>
        match rows.head? with
        | none => .error (.keyError ("monthly_payment"))
        | some row =>
            .ok { s with ammortization := some row.monthly_payment, month := s.month + 1 }

/-- `MortgageStrategy.increase_house_value`. -/
def MortgageStrategy.increase_house_value (s : MortgageStrategy) (percentage : ℚ) :
    MortgageStrategy :=
  { s with house_value := s.house_value + s.house_value * percentage }

/-- State of `PresellingStrategy` (`src/housing.py`). -/
structure PresellingStrategy where
  house_value : ℚ
  preselling_down_payment : ℚ
  lump_sum : ℚ
  loan_down_payment : ℚ
  loan_term_months : ℕ
  loan_interest_rate : ℚ
  property_tax : ℚ
  maintenance_cost : ℚ
  month : ℕ
  ammortization : Option ℚ
  principal : Option ℚ
  ammortization_schedule : Option (List AmortRow)
deriving DecidableEq

/-- `PresellingStrategy.__init__`. -/
def mkPreselling (house_value preselling_down_payment lump_sum loan_down_payment : ℚ)
    (loan_term_months : ℕ) (loan_interest_rate property_tax maintenance_cost : ℚ) :
    PresellingStrategy :=
  { house_value := house_value, preselling_down_payment := preselling_down_payment,
    lump_sum := lump_sum, loan_down_payment := loan_down_payment,
    loan_term_months := loan_term_months, loan_interest_rate := loan_interest_rate,
    property_tax := property_tax, maintenance_cost := maintenance_cost,
    month := 0, ammortization := none, principal := none, ammortization_schedule := none }

/-- `PresellingStrategy.calculate_housing_cost`. -/
def PresellingStrategy.calculate_housing_cost (s : PresellingStrategy) : Except PyErr ℚ :=
  match s.ammortization with
  | none => .error (.attributeError ("ammortization"))
  | some a => .ok (a + s.property_tax + s.maintenance_cost)

/-- `PresellingStrategy.create_ammortization_schedule`. -/
def PresellingStrategy.create_ammortization_schedule (s : PresellingStrategy) :
    Except PyErr PresellingStrategy :=
  match s.principal with
  | none => .error (.attributeError ("principal"))
  | some p =>
      (calculate_ammortization_schedule p s.loan_interest_rate
        ((s.loan_term_months : ℚ) / 12)).map
        fun rows => { s with ammortization_schedule := some rows }

/-- `PresellingStrategy.set_ammortization`: the preselling phase machine —
done / preselling down payment / three hard-coded installment tiers
(52513.87, 73519.42, 168044.39) / loan down payment and origination
against `lump_sum` / fixed schedule payment — incrementing `self.month`
at the end. -/
def PresellingStrategy.set_ammortization (s : PresellingStrategy) :
    Except PyErr PresellingStrategy :=
  if 60 + s.loan_term_months + 1 < s.month then
    .ok { s with ammortization := some 0, month := s.month + 1 }
  else if s.month = 0 then
    .ok { s with ammortization := some s.preselling_down_payment, month := s.month + 1 }
  else if s.month ≤ 24 then
    .ok { s with ammortization := some (5251387/100), month := s.month + 1 }
  else if s.month ≤ 48 then
    .ok { s with ammortization := some (7351942/100), month := s.month + 1 }
  else if s.month ≤ 60 then
    .ok { s with ammortization := some (16804439/100), month := s.month + 1 }
  else if s.month = 61 then
    let s1 := { s with ammortization := some s.loan_down_payment,
                       principal := some s.lump_sum }
    s1.create_ammortization_schedule.map fun s2 => { s2 with month := s2.month + 1 }
  else
    match s.ammortization_schedule with
    | none => .error (.attributeError ("ammortization_schedule"))
    | some rows =>
        match rows.head? with
        | none => .error (.keyError ("monthly_payment"))
        | some row =>
            .ok { s with ammortization := some row.monthly_payment, month := s.month + 1 }

/-- `PresellingStrategy.increase_house_value`. -/
def PresellingStrategy.increase_house_value (s : PresellingStrategy) (percentage : ℚ) :
    PresellingStrategy :=
  { s with house_value := s.house_value + s.house_value * percentage }

/-- State of `RentStrategy` (`src/housing.py`). -/
structure RentStrategy where
  rent : ℚ
deriving DecidableEq

/-- `RentStrategy.increase_rent`. -/
def RentStrategy.increase_rent (s : RentStrategy) (percentage : ℚ) : RentStrategy :=
  { rent := s.rent + s.rent * percentage }

/-- The housing strategy passed to the calculators, as a sum over the three
concrete classes (the source dispatches with `isinstance`). -/
inductive Housing where
  | mortgage (s : MortgageStrategy)
  | preselling (s : PresellingStrategy)
  | rent (s : RentStrategy)
deriving DecidableEq

/-- `isinstance(housing, (MortgageStrategy, PresellingStrategy))`. -/
def Housing.is_owned : Housing → Bool
  | .mortgage _ => true
  | .preselling _ => true
  | .rent _ => false

/-- Dynamic dispatch of `calculate_housing_cost`. -/
def Housing.calculate_housing_cost : Housing → Except PyErr ℚ
  | .mortgage s => s.calculate_housing_cost
  | .preselling s => s.calculate_housing_cost
  | .rent s => .ok s.rent

/-- `housing.house_value if is_owned else 0` from the projection loop. -/
def Housing.house_value_or_zero : Housing → ℚ
  | .mortgage s => s.house_value
  | .preselling s => s.house_value
  | .rent _ => 0

/-- Annual update of the housing strategy inside the projection loop:
`increase_house_value(house_value_increase)` when owned,
`increase_rent(expense_increase)` when rented. -/
def Housing.annual_update (h : Housing) (house_value_increase expense_increase : ℚ) : Housing :=
  match h with
  | .mortgage s => .mortgage (s.increase_house_value house_value_increase)
  | .preselling s => .preselling (s.increase_house_value house_value_increase)
  | .rent s => .rent (s.increase_rent expense_increase)

/-- `set_ammortization` dispatched over the housing sum (identity for rent,
whose `isinstance` branch is skipped in the loop). -/
def Housing.set_ammortization_step : Housing → Except PyErr Housing
  | .mortgage s => s.set_ammortization.map .mortgage
  | .preselling s => s.set_ammortization.map .preselling
  | .rent s => .ok (.rent s)

/-- The method names defined by `class MortgageStrategy` in `src/housing.py`. -/
def mortgage_class_methods : List String :=
  ["__init__", "calculate_housing_cost", "calculate_yearly_cost",
   "create_ammortization_schedule", "set_ammortization", "increase_house_value"]

/-- The method names defined by `class PresellingStrategy` in `src/housing.py`. -/
def preselling_class_methods : List String :=
  ["__init__", "calculate_housing_cost", "calculate_yearly_cost",
   "create_ammortization_schedule", "set_ammortization", "increase_house_value"]

/-- The method names defined by `class RentStrategy` in `src/housing.py`. -/
def rent_class_methods : List String :=
  ["__init__", "calculate_housing_cost", "increase_rent"]

/-- Method table of the class of a housing instance. -/
def Housing.class_methods : Housing → List String
  | .mortgage _ => mortgage_class_methods
  | .preselling _ => preselling_class_methods
  | .rent _ => rent_class_methods

/-- `BasicInvestmentStrategy.__post_init__` (`src/investment.py`):
`monthly_return_rate = (1 + annual_return_rate) ** (1 / 12) - 1`. -/
noncomputable def BasicInvestmentStrategy.monthly_return_rate (annual_return_rate : ℝ) : ℝ :=
  (1 + annual_return_rate) ^ ((1 : ℝ) / 12) - 1

/-- `BasicInvestmentStrategy.calculate_monthly_return`. -/
noncomputable def BasicInvestmentStrategy.calculate_monthly_return
    (annual_return_rate current_investment : ℝ) : ℝ :=
  current_investment * BasicInvestmentStrategy.monthly_return_rate annual_return_rate

/-- The `risk_multipliers` dictionary of `RiskAdjustedStrategy.__post_init__`;
`none` is the `KeyError` of an unknown risk level. -/
def risk_multipliers (risk_level : String) : Option ℚ :=
  if risk_level = "conservative" then some (7/10)
  else if risk_level = "moderate" then some 1
  else if risk_level = "aggressive" then some (13/10)
  else none

/-- `RiskAdjustedStrategy.__post_init__`: the risk-scaled rate
`base_return_rate * risk_multipliers[risk_level]` converted by the same
compounding formula. -/
noncomputable def RiskAdjustedStrategy.monthly_return_rate
    (base_return_rate : ℝ) (risk_level : String) : Option ℝ :=
  (risk_multipliers risk_level).map
    fun m => (1 + base_return_rate * (m : ℝ)) ^ ((1 : ℝ) / 12) - 1

/-- `RiskAdjustedStrategy.calculate_monthly_return`. -/
noncomputable def RiskAdjustedStrategy.calculate_monthly_return
    (base_return_rate : ℝ) (risk_level : String) (current_investment : ℝ) : Option ℝ :=
  (RiskAdjustedStrategy.monthly_return_rate base_return_rate risk_level).map
    fun m => current_investment * m

/-- One month of investment growth with zero contributions:
`balance += calculate_monthly_return(balance)`, for a strategy whose
stored monthly rate is `monthly_rate`. -/
noncomputable def apply_monthly_return (monthly_rate balance : ℝ) : ℝ :=
  balance + balance * monthly_rate

/-- The mutable scalar fields of `BudgetCalculator` (`src/BudgetCalculator.py`)
that `calculate_financial_projection` reads and writes. -/
structure BudgetCalculatorState where
  salary : ℚ
  other_income : ℚ
  daily_living_expense : ℚ
  other_expenses : ℚ
deriving DecidableEq

/-- The `FinancialStrategy` dataclass: allocation rates together with the
investment strategy, which the projection loop only consults through its
stored `monthly_return_rate` field.  That field is produced over `ℝ` at
construction (see `BasicInvestmentStrategy.monthly_return_rate`); the loop
is embedded parametrically in its value. -/
structure FinancialStrategyParams where
  savings_rate : ℚ
  investments_rate : ℚ
  monthly_return_rate : ℚ
deriving DecidableEq

/-- `BudgetCalculator.calculate_total_income`. -/
def calculate_total_income (bc : BudgetCalculatorState) : ℚ :=
  bc.salary + bc.other_income

/-- `BudgetCalculator.calculate_budget`: total income minus
(housing cost + daily living + other expenses). -/
def calculate_budget (bc : BudgetCalculatorState) (housing : Housing) : Except PyErr ℚ :=
  housing.calculate_housing_cost.map
    fun hc => calculate_total_income bc - (hc + bc.daily_living_expense + bc.other_expenses)

/-- `BudgetCalculator.increase_income`. -/
def increase_income (bc : BudgetCalculatorState) (pct : ℚ) : BudgetCalculatorState :=
  { bc with salary := bc.salary + bc.salary * pct,
            other_income := bc.other_income + bc.other_income * pct }

/-- `BudgetCalculator.increase_expense`. -/
def increase_expense (bc : BudgetCalculatorState) (pct : ℚ) : BudgetCalculatorState :=
  { bc with daily_living_expense := bc.daily_living_expense + bc.daily_living_expense * pct,
            other_expenses := bc.other_expenses + bc.other_expenses * pct }

/-- One row of the projection `DataFrame` built by
`BudgetCalculator.calculate_financial_projection`. -/
structure ProjectionRecord where
  net_worth : ℚ
  house_value : ℚ
  housing_cost : ℚ
  cashflow : ℚ
  investments : ℚ
  investment_returns : ℚ
  savings : ℚ
  liabilities : ℚ
deriving DecidableEq

/-- Result of one iteration of the projection loop: the updated calculator
fields, housing strategy and running balances, plus the recorded row. -/
structure MonthResult where
  bc : BudgetCalculatorState
  housing : Housing
  savings : ℚ
  investments : ℚ
  record : ProjectionRecord
deriving DecidableEq

/-- The housing update of the loop body: for owned strategies
`housing.set_ammortization()` followed by `housing.set_yearly_cost()` —
the latter resolved by attribute lookup in the class method table, an
`AttributeError` when absent. -/
def housing_phase_update (h : Housing) : Except PyErr Housing :=
  if h.is_owned then do
    let h1 ← h.set_ammortization_step
    if ("set_yearly_cost") ∈ h1.class_methods then .ok h1
    else .error (.attributeError ("set_yearly_cost"))
  else .ok h

/-- The body of `for month in range(1, months + 1)` in
`BudgetCalculator.calculate_financial_projection`: annual escalation,
housing update, budget, investment return, allocation, record. -/
def month_body (fin : FinancialStrategyParams)
    (income_increase expense_increase house_value_increase : ℚ)
    (bc : BudgetCalculatorState) (housing : Housing)
    (savings investments liabilities : ℚ) (month : ℕ) : Except PyErr MonthResult :=
  let bc1 := if month % 12 = 1 ∧ 1 < month
    then increase_expense (increase_income bc income_increase) expense_increase else bc
  let h1 := if month % 12 = 1 ∧ 1 < month
    then housing.annual_update house_value_increase expense_increase else housing
  do
    let h2 ← housing_phase_update h1
    let budget ← calculate_budget bc1 h2
    let investment_return := investments * fin.monthly_return_rate
    let inv1 := investments + investment_return
    let sav2 := if 0 ≤ budget then savings + budget * fin.savings_rate else savings
    let inv2 := if 0 ≤ budget then inv1 + budget * fin.investments_rate else inv1 + budget
    let house_value := if h2.is_owned then h2.house_value_or_zero else 0
    let hc ← h2.calculate_housing_cost
    .ok { bc := bc1, housing := h2, savings := sav2, investments := inv2,
          record := { net_worth := sav2 + inv2 - liabilities + house_value,
                      house_value := house_value, housing_cost := hc, cashflow := budget,
                      investments := inv2, investment_returns := investment_return,
                      savings := sav2, liabilities := liabilities } }

/-- The projection loop: `month` is the next month index, the second `ℕ`
argument the number of months still to simulate, `acc` the rows recorded
so far (in order). -/
def projection_loop (fin : FinancialStrategyParams)
    (income_increase expense_increase house_value_increase : ℚ) :
    BudgetCalculatorState → Housing → ℚ → ℚ → ℚ → ℕ → ℕ → List ProjectionRecord →
    Except PyErr (BudgetCalculatorState × Housing × List ProjectionRecord)
  | bc, h, _savings, _investments, _liabilities, _month, 0, acc => .ok (bc, h, acc)
  | bc, h, savings, investments, liabilities, month, Nat.succ k, acc => do
      let res ← month_body fin income_increase expense_increase house_value_increase
        bc h savings investments liabilities month
      projection_loop fin income_increase expense_increase house_value_increase
        res.bc res.housing res.savings res.investments liabilities (month + 1) k
        (acc ++ [res.record])

/-- `BudgetCalculator.calculate_financial_projection`: runs the monthly loop
and returns the final (mutated) calculator fields and housing strategy
together with the recorded rows. -/
def calculate_financial_projection (fin : FinancialStrategyParams)
    (bc : BudgetCalculatorState) (housing : Housing)
    (savings investments liabilities : ℚ) (months : ℕ)
    (income_increase expense_increase house_value_increase : ℚ) :
    Except PyErr (BudgetCalculatorState × Housing × List ProjectionRecord) :=
  projection_loop fin income_increase expense_increase house_value_increase
    bc housing savings investments liabilities 1 months []

/-- `k`-fold application of `PresellingStrategy.set_ammortization` from a
given state (the projection loop calls it once per simulated month). -/
def preselling_iter (s : PresellingStrategy) : ℕ → Except PyErr PresellingStrategy
  | 0 => .ok s
  | Nat.succ k => (preselling_iter s k).bind PresellingStrategy.set_ammortization

/-- The amortization cost component the preselling phase machine assigns
while processing 0-based month `k` (`payment` is the fixed schedule
payment of the originated loan). -/
def preselling_expected_ammortization (psdp ldp payment : ℚ) (term : ℕ) (k : ℕ) : ℚ :=
  if 60 + term + 1 < k then 0
  else if k = 0 then psdp
  else if k ≤ 24 then 5251387/100
  else if k ≤ 48 then 7351942/100
  else if k ≤ 60 then 16804439/100
  else if k = 61 then ldp
  else payment

/-- Closed form of the preselling state after `k` calls to
`set_ammortization` starting from a freshly constructed strategy. -/
def preselling_phase_state (hv psdp lump ldp : ℚ) (term : ℕ) (r tax maint : ℚ)
    (k : ℕ) : PresellingStrategy :=
  { house_value := hv, preselling_down_payment := psdp, lump_sum := lump,
    loan_down_payment := ldp, loan_term_months := term, loan_interest_rate := r,
    property_tax := tax, maintenance_cost := maint, month := k,
    ammortization := if k = 0 then none else
      some (preselling_expected_ammortization psdp ldp
        (round3 (annuity_monthly_payment lump (r/12) term)) term (k - 1)),
    principal := if k ≤ 61 then none else some lump,
    ammortization_schedule := if k ≤ 61 then none else
      some (amortLoop (r/12) (annuity_monthly_payment lump (r/12) term) lump 1 term) }

/-- Modelled from the spec: the monthly housing cost formula claimed in
§4.2 — loan component plus, while owned, `house_value·propertyTaxRate/12 +
house_value·maintenanceCostRate/12`, and zero tax/maintenance while
unowned.  (Used only to compare the claimed formula with the source's
`calculate_housing_cost`.) -/
def spec_monthly_housing_cost (loan_component house_value property_tax_rate
    maintenance_cost_rate : ℚ) (owned : Bool) : ℚ :=
  loan_component +
    (if owned then house_value * property_tax_rate / 12 +
                   house_value * maintenance_cost_rate / 12
     else 0)

/-- Concrete preselling strategy exercising claim C3: tax parameter 5,
maintenance parameter 7. -/
def c3_preselling0 : PresellingStrategy := mkPreselling 1200 100 900 180 12 (12/100) 5 7

/-- The housing cost the source computes for `c3_preselling0` during
0-based month 1 (an unowned, pre-turnover month). -/
def c3_month1_cost : Except PyErr ℚ := do
  let s1 ← c3_preselling0.set_ammortization
  let s2 ← s1.set_ammortization
  s2.calculate_housing_cost

/-- Concrete financial-strategy parameters for exercising claim C10
(all surplus to investments, zero monthly return). -/
def c10_params : FinancialStrategyParams :=
  { savings_rate := 0, investments_rate := 1, monthly_return_rate := 0 }

/-- Concrete calculator fields for claim C10. -/
def c10_bc0 : BudgetCalculatorState :=
  { salary := 100, other_income := 0, daily_living_expense := 0, other_expenses := 0 }

/-- Concrete rent strategy for claim C10. -/
def c10_housing0 : Housing := .rent { rent := 10 }

/-- Two successive calls of `calculate_financial_projection` with identical
arguments (13 months, 100% annual income growth): the second call starts
from the calculator fields and housing strategy the first call mutated,
exactly as re-invoking the method on the same Python objects would. -/
def c10_two_runs : Except PyErr (List ProjectionRecord × List ProjectionRecord) := do
  let (bc1, h1, recs1) ← calculate_financial_projection c10_params c10_bc0 c10_housing0
    0 0 0 13 1 0 0
  let (_, _, recs2) ← calculate_financial_projection c10_params bc1 h1
    0 0 0 13 1 0 0
  .ok (recs1, recs2)

/-- The single-row schedule of `calculate_ammortization_schedule(1200, 0.12, 1/12)`,
used as a concrete witness input. -/
def c9_rows : List AmortRow :=
  [{ month := 1, monthly_payment := 1212, interest := 12, principal := 1200,
     remaining_balance := 0 }]

/-- A concrete mortgage state with the amortization component already set,
used as a witness input for claim C3. -/
def c3_mortgage_example : MortgageStrategy :=
  { house_value := 1200, down_payment := 240, loan_term_months := 12,
    loan_interest_rate := 12/100, property_tax := 5, maintenance_cost := 7,
    month := 3, ammortization := some 50, principal := none,
    ammortization_schedule := none }

/-- A concrete preselling state with the amortization component already set,
used as a witness input for claim C3. -/
def c3_preselling_example : PresellingStrategy :=
  { house_value := 1200, preselling_down_payment := 100, lump_sum := 900,
    loan_down_payment := 180, loan_term_months := 12, loan_interest_rate := 12/100,
    property_tax := 5, maintenance_cost := 7, month := 3, ammortization := some 50,
    principal := none, ammortization_schedule := none }

/-- The month result of a concrete rent month with a negative budget
(salary 0, rent 10), used as a witness input for claim C5. -/
def c5_res : MonthResult :=
  { bc := { salary := 0, other_income := 0, daily_living_expense := 0,
            other_expenses := 0 },
    housing := .rent { rent := 10 }, savings := 5, investments := 10,
    record := { net_worth := 15, house_value := 0, housing_cost := 10,
                cashflow := -10, investments := 10, investment_returns := 0,
                savings := 5, liabilities := 0 } }

attribute [local semireducible] Rat.add Rat.mul Rat.inv Rat.sub

lemma roundHalfEven_sub_le (x : ℚ) : |(roundHalfEven x : ℚ) - x| ≤ 1/2 := by
  have h0 : (⌊x⌋ : ℚ) ≤ x := Int.floor_le x
  have h1 : x < ⌊x⌋ + 1 := Int.lt_floor_add_one x
  unfold roundHalfEven
  split_ifs with hlt hgt hev <;> rw [abs_le] <;> constructor <;> push_cast <;> linarith

lemma round3_sub_le (x : ℚ) : |round3 x - x| ≤ 1/2000 := by
  have h := roundHalfEven_sub_le (1000 * x)
  rw [abs_le] at h ⊢
  unfold round3
  constructor <;> [skip; skip] <;>
    · rcases h with ⟨ha, hb⟩
      linarith

lemma roundHalfEven_mono {x y : ℚ} (h : x ≤ y) : roundHalfEven x ≤ roundHalfEven y := by
  have hf : ⌊x⌋ ≤ ⌊y⌋ := Int.floor_le_floor h
  rcases lt_or_eq_of_le hf with hlt | heq
  · have hx : roundHalfEven x ≤ ⌊x⌋ + 1 := by
      unfold roundHalfEven; split_ifs <;> omega
    have hy : ⌊y⌋ ≤ roundHalfEven y := by
      unfold roundHalfEven; split_ifs <;> omega
    omega
  · unfold roundHalfEven
    rw [← heq]
    split_ifs <;> first | omega | linarith

lemma round3_mono {x y : ℚ} (h : x ≤ y) : round3 x ≤ round3 y := by
  unfold round3
  have : roundHalfEven (1000 * x) ≤ roundHalfEven (1000 * y) :=
    roundHalfEven_mono (by linarith)
  have hc : (roundHalfEven (1000 * x) : ℚ) ≤ (roundHalfEven (1000 * y) : ℚ) := by
    exact_mod_cast this
  linarith

lemma round3_zero : round3 0 = 0 := by decide

lemma amortLoop_length (mr M : ℚ) : ∀ (k : ℕ) (b : ℚ) (i : ℕ),
    (amortLoop mr M b i k).length = k := by
  intro k
  induction k with
  | zero => intro b i; rfl
  | succ k ih => intro b i; simpa [amortLoop] using ih _ _

lemma amortLoop_payment (mr M : ℚ) : ∀ (k : ℕ) (b : ℚ) (i : ℕ),
    ∀ row ∈ amortLoop mr M b i k, row.monthly_payment = round3 M := by
  intro k
  induction k with
  | zero => intro b i row hrow; simp [amortLoop] at hrow
  | succ k ih =>
      intro b i row hrow
      rw [amortLoop] at hrow
      rcases List.mem_cons.1 hrow with hhead | htail
      · subst hhead; rfl
      · exact ih _ _ row htail

lemma amortLoop_head (mr M b : ℚ) (i k : ℕ) :
    (amortLoop mr M b i (k + 1)).head? = some
      { month := i, monthly_payment := round3 M, interest := round3 (b * mr),
        principal := round3 (M - b * mr),
        remaining_balance := round3 (b - (M - b * mr)) } := rfl

lemma amortLoop_last (mr M : ℚ) : ∀ (k : ℕ) (b : ℚ) (i : ℕ),
    ((amortLoop mr M b i (k + 1)).map AmortRow.remaining_balance).getLast? =
      some (round3 (finalBal mr M b (k + 1))) := by
  intro k
  induction k with
  | zero =>
      intro b i
      show some (round3 (b - (M - b * mr))) = some (round3 (finalBal mr M b 1))
      have hb : b - (M - b * mr) = b * (1 + mr) - M := by ring
      rw [hb]
      rfl
  | succ k ih =>
      intro b i
      rw [amortLoop, List.map_cons]
      have htail := ih (b - (M - b * mr)) (i + 1)
      rw [List.getLast?_cons, htail]
      have hstep : finalBal mr M b (k + 2) =
          finalBal mr M (b - (M - b * mr)) (k + 1) := by
        show finalBal mr M b (k + 2) = _
        rw [finalBal]
        have hb : b * (1 + mr) - M = b - (M - b * mr) := by ring
        rw [hb]
      rw [hstep]
      rfl

lemma amortLoop_principal_sum (mr M : ℚ) : ∀ (k : ℕ) (b : ℚ) (i : ℕ),
    |((amortLoop mr M b i k).map AmortRow.principal).sum -
      (b - finalBal mr M b k)| ≤ (k : ℚ) * (1/2000) := by
  intro k
  induction k with
  | zero => intro b i; simp [amortLoop, finalBal]
  | succ k ih =>
      intro b i
      rw [amortLoop]
      have hstep : finalBal mr M b (k + 1) = finalBal mr M (b - (M - b * mr)) k := by
        rw [finalBal]
        have hb : b * (1 + mr) - M = b - (M - b * mr) := by ring
        rw [hb]
      rw [List.map_cons, List.sum_cons, hstep]
      have h1 := round3_sub_le (M - b * mr)
      have h2 := ih (b - (M - b * mr)) (i + 1)
      rw [abs_le] at h1 h2 ⊢
      push_cast
      constructor <;> nlinarith [h1.1, h1.2, h2.1, h2.2]

lemma amortLoop_payment_split (mr M : ℚ) : ∀ (k : ℕ) (b : ℚ) (i : ℕ),
    ∀ row ∈ amortLoop mr M b i k,
      |row.monthly_payment - (row.interest + row.principal)| ≤ 3 * (1/2000) := by
  intro k
  induction k with
  | zero => intro b i row hrow; simp [amortLoop] at hrow
  | succ k ih =>
      intro b i row hrow
      rw [amortLoop] at hrow
      rcases List.mem_cons.1 hrow with hhead | htail
      · subst hhead
        have h1 := round3_sub_le M
        have h2 := round3_sub_le (b * mr)
        have h3 := round3_sub_le (M - b * mr)
        rw [abs_le] at h1 h2 h3 ⊢
        constructor <;>
          · simp only []
            linarith [h1.1, h1.2, h2.1, h2.2, h3.1, h3.2]
      · exact ih _ _ row htail

lemma amortLoop_chain (mr M : ℚ) (hmr : 0 ≤ mr) : ∀ (k : ℕ) (b : ℚ) (i : ℕ),
    0 ≤ M - b * mr →
    List.Chain' (fun a c : AmortRow => c.remaining_balance ≤ a.remaining_balance)
      (amortLoop mr M b i k) := by
  intro k
  induction k with
  | zero => intro b i _; simp [amortLoop]
  | succ k ih =>
      intro b i hpp
      rw [amortLoop]
      have hpp2 : 0 ≤ M - (b - (M - b * mr)) * mr := by nlinarith
      rcases k with _ | k
      · simp [amortLoop]
      · rw [List.chain'_cons' ]
        refine ⟨?_, ih (b - (M - b * mr)) (i + 1) hpp2⟩
        intro y hy
        rw [amortLoop_head] at hy
        rw [Option.mem_def, Option.some_inj] at hy
        subst hy
        show round3 ((b - (M - b * mr)) - (M - (b - (M - b * mr)) * mr)) ≤
          round3 (b - (M - b * mr))
        apply round3_mono
        linarith

lemma finalBal_closed (mr M : ℚ) : ∀ (k : ℕ) (b : ℚ),
    finalBal mr M b k =
      b * (1 + mr) ^ k - M * (Finset.range k).sum (fun j => (1 + mr) ^ j) := by
  intro k
  induction k with
  | zero => intro b; simp [finalBal]
  | succ k ih =>
      intro b
      rw [finalBal, ih]
      rw [geom_sum_succ' ]
      ring

lemma one_lt_u_pow {mr : ℚ} (hmr : 0 < mr) {m : ℕ} (hm : 1 ≤ m) :
    1 < (1 + mr) ^ m := by
  have hu : (1 : ℚ) < 1 + mr := by linarith
  calc (1 : ℚ) = 1 ^ m := (one_pow m).symm
    _ < (1 + mr) ^ m := by
      apply pow_lt_pow_left₀ hu (by norm_num)
      omega

lemma annuity_denom_pos {mr : ℚ} (hmr : 0 < mr) {m : ℕ} (hm : 1 ≤ m) :
    0 < 1 - (1 + mr) ^ (-(m : ℤ)) ∧ 1 - (1 + mr) ^ (-(m : ℤ)) < 1 := by
  have hpow := one_lt_u_pow hmr hm
  have hupos : (0 : ℚ) < (1 + mr) ^ m := by positivity
  have hz : (1 + mr) ^ (-(m : ℤ)) = ((1 + mr) ^ m)⁻¹ := by
    rw [zpow_neg, zpow_natCast]
  rw [hz]
  constructor
  · have : ((1 + mr) ^ m)⁻¹ < 1 := by
      rw [inv_lt_one_iff₀]
      right
      exact hpow
    linarith
  · have : 0 < ((1 + mr) ^ m)⁻¹ := by positivity
    linarith

lemma finalBal_annuity_zero (p mr : ℚ) (m : ℕ) (hmr : 0 < mr) (hm : 1 ≤ m) :
    finalBal mr (annuity_monthly_payment p mr (m : ℤ)) p m = 0 := by
  have hu1 : (1 : ℚ) + mr ≠ 1 := by linarith
  have hupos : (0 : ℚ) < 1 + mr := by linarith
  have hpow := one_lt_u_pow hmr hm
  have hpow0 : ((1 : ℚ) + mr) ^ m ≠ 0 := by positivity
  have hpow1 : ((1 : ℚ) + mr) ^ m - 1 ≠ 0 := by linarith
  rw [finalBal_closed, geom_sum_eq hu1 m]
  unfold annuity_monthly_payment
  rw [zpow_neg, zpow_natCast]
  have hden : 1 - ((1 + mr) ^ m)⁻¹ ≠ 0 := by
    have h1 : ((1 + mr) ^ m)⁻¹ < 1 := by
      rw [inv_lt_one_iff₀]
      right
      exact hpow
    linarith
  have hmr0 : mr ≠ 0 := ne_of_gt hmr
  field_simp
  ring

lemma int_trunc_natCast (m : ℕ) : int_trunc (m : ℚ) = (m : ℤ) := by
  unfold int_trunc
  rw [if_pos (by positivity)]
  exact_mod_cast Int.floor_natCast m

lemma calc_schedule_nat (p r : ℚ) (m : ℕ) (hr : 0 < r) (hm : 1 ≤ m) :
    calculate_ammortization_schedule p r ((m : ℚ) / 12) =
      .ok (amortLoop (r / 12) (annuity_monthly_payment p (r / 12) (m : ℤ)) p 1 m) := by
  have hmr : (0 : ℚ) < r / 12 := by positivity
  have htp : ((m : ℚ) / 12) * 12 = (m : ℚ) := by
    field_simp
  unfold calculate_ammortization_schedule
  rw [htp, int_trunc_natCast]
  rw [if_neg, if_neg]
  · rw [Int.toNat_natCast]
  · exact ne_of_gt (annuity_denom_pos hmr hm).1

  · rintro ⟨h1, _⟩
    have : (0 : ℚ) < 1 + r / 12 := by linarith
    rw [h1] at this
    exact lt_irrefl 0 this

lemma annuity_pp_nonneg (p mr : ℚ) (m : ℕ) (hp : 0 < p) (hmr : 0 < mr) (hm : 1 ≤ m) :
    0 ≤ annuity_monthly_payment p mr (m : ℤ) - p * mr := by
  obtain ⟨hd0, hd1⟩ := annuity_denom_pos hmr hm
  unfold annuity_monthly_payment
  have h1 : p * mr ≤ p * mr / (1 - (1 + mr) ^ (-(m : ℤ))) := by
    rw [le_div_iff₀ hd0]
    nlinarith [mul_pos hp hmr]
  linarith

lemma int_trunc_intCast (m : ℤ) : int_trunc (m : ℚ) = m := by
  unfold int_trunc
  split_ifs with h
  · exact Int.floor_intCast m
  · rw [← Int.cast_neg, Int.floor_intCast]
    omega

/-- Claim C9 (confirmed): every schedule produced by
`calculate_ammortization_schedule` with `principal > 0` and
`annualRate ≥ 0` satisfies `payment = interest + principal_component` in
each row up to rounding (three rounded values, each within 1/2000), and
its `remaining_balance` column is monotonically non-increasing from row
to row. -/
theorem c9_schedule_invariants (p r years : ℚ) (rows : List AmortRow)
    (hp : 0 < p) (hr : 0 ≤ r)
    (h : calculate_ammortization_schedule p r years = .ok rows) :
    (∀ row ∈ rows,
      |row.monthly_payment - (row.interest + row.principal)| ≤ 3 * (1/2000)) ∧
    List.Chain' (fun a c : AmortRow => c.remaining_balance ≤ a.remaining_balance) rows := by
  unfold calculate_ammortization_schedule at h
  by_cases h1 : 1 + r / 12 = 0 ∧ 0 < int_trunc (years * 12)
  · rw [if_pos h1] at h
    exact Except.noConfusion h
  rw [if_neg h1] at h
  by_cases h2 : 1 - (1 + r / 12) ^ (-int_trunc (years * 12)) = 0
  · rw [if_pos h2] at h
    exact Except.noConfusion h
  rw [if_neg h2] at h
  injection h with hrows
  subst hrows
  refine ⟨fun row hrow => amortLoop_payment_split _ _ _ _ _ row hrow, ?_⟩
  rcases Nat.eq_zero_or_pos (int_trunc (years * 12)).toNat with hz | hpos
  · rw [hz]
    simp [amortLoop]
  · have hrpos : 0 < r := by
      rcases lt_or_eq_of_le hr with hlt | heq
      · exact hlt
      · exfalso
        apply h2
        rw [← heq]
        norm_num
    have hmr : (0 : ℚ) < r / 12 := by positivity
    have hnn : (0 : ℤ) ≤ int_trunc (years * 12) := by omega
    have hcast : int_trunc (years * 12) = (((int_trunc (years * 12)).toNat : ℕ) : ℤ) := by
      omega
    rw [hcast]
    apply amortLoop_chain _ _ (le_of_lt hmr)
    exact annuity_pp_nonneg p (r / 12) _ hp hmr hpos

/-- Claim C1 counterexample: at `principal = 1200 > 0`, `annualRate = 0 ≥ 0`
and a 12-month term, `calculate_ammortization_schedule` does not return a
schedule at all — the payment formula divides by
`1 - (1 + 0)^(-12) = 0` (Python `ZeroDivisionError`). -/
theorem c1_counterexample :
    calculate_ammortization_schedule 1200 0 1 = .error .zeroDivisionError := by decide

/-- Claim C1 (corrected: `annualRate ≥ 0` must be strengthened to
`annualRate > 0`): for `principal > 0`, `annualRate > 0` and term
`m ≥ 1` months, the schedule is returned, the stored principal
components sum to the principal within rounding tolerance
(`m` rows, each rounded within 1/2000), and the final row's
`remaining_balance` is exactly 0. -/
theorem c1_amortization_totals (p r : ℚ) (m : ℕ)
    (_hp : 0 < p) (hr : 0 < r) (hm : 1 ≤ m) :
    ∃ rows, calculate_ammortization_schedule p r ((m : ℚ) / 12) = .ok rows ∧
      |(rows.map AmortRow.principal).sum - p| ≤ (m : ℚ) * (1/2000) ∧
      (rows.map AmortRow.remaining_balance).getLast? = some 0 := by
  have hmr : (0 : ℚ) < r / 12 := by positivity
  refine ⟨_, calc_schedule_nat p r m hr hm, ?_, ?_⟩
  · have hsum := amortLoop_principal_sum (r / 12)
      (annuity_monthly_payment p (r / 12) (m : ℤ)) m p 1
    rw [finalBal_annuity_zero p (r / 12) m hmr hm] at hsum
    simpa using hsum
  · obtain ⟨k, hk⟩ := Nat.exists_eq_add_of_le hm
    have hk' : m = k + 1 := by omega
    subst hk'
    rw [amortLoop_last]
    rw [finalBal_annuity_zero p (r / 12) (k + 1) hmr (by omega)]
    rw [round3_zero]

/-- Claim C2 (the guard the spec mandates is absent — code bug): at
`annualRate = 0`, `principal = 2400`, term 24 months, the source divides
by the vanishing annuity denominator and raises `ZeroDivisionError`
instead of returning the `principal/termMonths` schedule. -/
theorem c2_zero_rate_divides_by_zero :
    calculate_ammortization_schedule 2400 0 2 = .error .zeroDivisionError := by decide

/-- Claim C7 counterexample: for `principal = -1200 < 0` (rate 12%, term
12 months) the source performs no validation and happily returns a
12-row schedule instead of failing with `InvalidScheduleInput`. -/
theorem c7_counterexample :
    (calculate_ammortization_schedule (-1200) (12/100) 1).map List.length = .ok 12 := by
  decide

/-- Claim C7 (corrected): `calculate_ammortization_schedule` performs no
input validation and no `InvalidScheduleInput` exists in the source: a
negative principal (any principal) with positive rate and positive term
yields a normal term-length schedule; a negative term yields an empty
schedule; only a zero term fails, and then with a `ZeroDivisionError`
from the annuity denominator rather than a validation error. -/
theorem c7_no_input_validation :
    (∀ (p r : ℚ) (m : ℕ), 0 < r → 1 ≤ m →
      ∃ rows, calculate_ammortization_schedule p r ((m : ℚ) / 12) = .ok rows ∧
        rows.length = m) ∧
    (∀ (p r : ℚ) (m : ℤ), 0 < r → m < 0 →
      calculate_ammortization_schedule p r ((m : ℚ) / 12) = .ok []) ∧
    (∀ (p r : ℚ), calculate_ammortization_schedule p r 0 = .error .zeroDivisionError) := by
  refine ⟨?_, ?_, ?_⟩
  · intro p r m hr hm
    exact ⟨_, calc_schedule_nat p r m hr hm, amortLoop_length _ _ _ _ _⟩
  · intro p r m hr hm
    have htp : ((m : ℚ) / 12) * 12 = (m : ℚ) := by field_simp
    have hmr : (0 : ℚ) < r / 12 := by positivity
    have hu : (1 : ℚ) < 1 + r / 12 := by linarith
    have hz : 1 < (1 + r / 12) ^ (-m) := one_lt_zpow₀ hu (by omega)
    have hc2 : ¬ 1 - (1 + r / 12) ^ (-m) = 0 := by
      intro hc
      have h1 : (1 + r / 12) ^ (-m) = 1 := by linarith
      rw [h1] at hz
      exact lt_irrefl 1 hz
    have hc1 : ¬ (1 + r / 12 = 0 ∧ 0 < m) := by
      rintro ⟨hone, _⟩
      linarith
    unfold calculate_ammortization_schedule
    rw [htp, int_trunc_intCast]
    rw [if_neg hc1, if_neg hc2]
    rw [Int.toNat_of_nonpos (le_of_lt hm)]
    rfl
  · intro p r
    have h0 : int_trunc ((0 : ℚ) * 12) = 0 := by decide
    have hc2 : 1 - (1 + r / 12) ^ (-(0 : ℤ)) = 0 := by
      rw [neg_zero, zpow_zero]
      ring
    have hc1 : ¬ (1 + r / 12 = 0 ∧ 0 < (0 : ℤ)) := by
      rintro ⟨_, hlt⟩
      exact lt_irrefl 0 hlt
    unfold calculate_ammortization_schedule
    rw [h0]
    rw [if_neg hc1, if_pos hc2]

/-- Witness for C1 at `principal = 1200`, `annualRate = 0.12`, term 12. -/
theorem c1_amortization_totals_witness :
    (0 : ℚ) < 1200 ∧ (0 : ℚ) < 12/100 ∧ (1 : ℕ) ≤ 12 ∧
    (∃ rows, calculate_ammortization_schedule 1200 (12/100) (((12 : ℕ) : ℚ) / 12) =
        .ok rows ∧
      |(rows.map AmortRow.principal).sum - 1200| ≤ ((12 : ℕ) : ℚ) * (1/2000) ∧
      (rows.map AmortRow.remaining_balance).getLast? = some 0) :=
  ⟨by decide, by decide, by decide,
   c1_amortization_totals 1200 (12/100) 12 (by decide) (by decide) (by decide)⟩

/-- Witness for C7's amended statement at concrete inputs. -/
theorem c7_no_input_validation_witness :
    (0 : ℚ) < 12/100 ∧ (1 : ℕ) ≤ 12 ∧ (-12 : ℤ) < 0 ∧
    (∃ rows, calculate_ammortization_schedule (-1200) (12/100) (((12 : ℕ) : ℚ) / 12) =
        .ok rows ∧ rows.length = 12) ∧
    calculate_ammortization_schedule 5 (12/100) (((-12 : ℤ) : ℚ) / 12) = .ok [] ∧
    calculate_ammortization_schedule 5 (12/100) 0 = .error .zeroDivisionError :=
  ⟨by decide, by decide, by decide,
   c7_no_input_validation.1 (-1200) (12/100) 12 (by decide) (by decide),
   c7_no_input_validation.2.1 5 (12/100) (-12) (by decide) (by decide),
   c7_no_input_validation.2.2 5 (12/100)⟩

/-- Witness for C9 on the concrete one-row schedule `c9_rows`. -/
theorem c9_schedule_invariants_witness :
    (0 : ℚ) < 1200 ∧ (0 : ℚ) ≤ 12/100 ∧
    calculate_ammortization_schedule 1200 (12/100) (1/12) = .ok c9_rows ∧
    ((∀ row ∈ c9_rows,
        |row.monthly_payment - (row.interest + row.principal)| ≤ 3 * (1/2000)) ∧
      List.Chain' (fun a c : AmortRow => c.remaining_balance ≤ a.remaining_balance)
        c9_rows) :=
  ⟨by decide, by decide, by decide,
   c9_schedule_invariants 1200 (12/100) (1/12) c9_rows (by decide) (by decide)
     (by decide)⟩

lemma except_bind_ok {e a b : Type} (x : Except e a) (f : a → Except e b) (y : b)
    (h : x >>= f = .ok y) : ∃ v, x = .ok v ∧ f v = .ok y := by
  cases x with
  | error err => exact Except.noConfusion h
  | ok v => exact ⟨v, rfl, h⟩

lemma except_map_ok {e a b : Type} (x : Except e a) (f : a → b) (y : b)
    (h : x.map f = .ok y) : ∃ v, x = .ok v ∧ f v = y := by
  cases x with
  | error err => exact Except.noConfusion h
  | ok v =>
      refine ⟨v, rfl, ?_⟩
      injection h

/-- Claim C3 counterexample: for the preselling strategy `c3_preselling0`
(tax parameter 5, maintenance parameter 7), during 0-based month 1 — an
unowned, pre-turnover month per the spec's phase machine — the source
charges the tier-1 installment plus 12 of tax/maintenance, while the
claimed formula contributes 0 tax/maintenance while unowned (and would
contribute `house_value`-proportional amounts while owned). -/
theorem c3_counterexample :
    c3_month1_cost = .ok (5251387/100 + 12) ∧
    spec_monthly_housing_cost (5251387/100) 1200 5 7 false = 5251387/100 ∧
    ((5251387/100 : ℚ) + 12) ≠ 5251387/100 := by
  refine ⟨by decide, ?_, by decide⟩
  unfold spec_monthly_housing_cost
  norm_num

/-- Claim C3 (corrected): for both owned strategies,
`calculate_housing_cost` returns `ammortization + property_tax +
maintenance_cost` where `property_tax` and `maintenance_cost` are the
fixed amounts given at construction — included every month regardless of
ownership phase, not proportional to `house_value`, and unaffected when
`increase_house_value` changes `house_value`. -/
theorem c3_housing_cost_flat :
    (∀ (s : MortgageStrategy) (a : ℚ), s.ammortization = some a →
      s.calculate_housing_cost = .ok (a + s.property_tax + s.maintenance_cost)) ∧
    (∀ (s : MortgageStrategy) (pct : ℚ),
      (s.increase_house_value pct).calculate_housing_cost = s.calculate_housing_cost) ∧
    (∀ (s : PresellingStrategy) (a : ℚ), s.ammortization = some a →
      s.calculate_housing_cost = .ok (a + s.property_tax + s.maintenance_cost)) ∧
    (∀ (s : PresellingStrategy) (pct : ℚ),
      (s.increase_house_value pct).calculate_housing_cost = s.calculate_housing_cost) := by
  refine ⟨?_, ?_, ?_, ?_⟩
  · intro s a h
    unfold MortgageStrategy.calculate_housing_cost
    rw [h]
  · intro s pct
    cases h : s.ammortization <;>
      simp [MortgageStrategy.calculate_housing_cost,
        MortgageStrategy.increase_house_value, h]
  · intro s a h
    unfold PresellingStrategy.calculate_housing_cost
    rw [h]
  · intro s pct
    cases h : s.ammortization <;>
      simp [PresellingStrategy.calculate_housing_cost,
        PresellingStrategy.increase_house_value, h]

/-- Witness for C3's corrected statement on concrete states. -/
theorem c3_housing_cost_flat_witness :
    c3_mortgage_example.ammortization = some 50 ∧
    c3_mortgage_example.calculate_housing_cost =
      .ok (50 + c3_mortgage_example.property_tax + c3_mortgage_example.maintenance_cost) ∧
    c3_preselling_example.ammortization = some 50 ∧
    c3_preselling_example.calculate_housing_cost =
      .ok (50 + c3_preselling_example.property_tax +
        c3_preselling_example.maintenance_cost) ∧
    (c3_mortgage_example.increase_house_value (1/10)).calculate_housing_cost =
      c3_mortgage_example.calculate_housing_cost :=
  ⟨rfl, c3_housing_cost_flat.1 c3_mortgage_example 50 rfl, rfl,
   c3_housing_cost_flat.2.2.1 c3_preselling_example 50 rfl,
   c3_housing_cost_flat.2.1 c3_mortgage_example (1/10)⟩

/-- Claim C5 (confirmed): in the projection loop of
`BudgetCalculator.calculate_financial_projection`, any month whose
recorded budget is negative leaves `savings` unchanged and changes
`investments` by exactly that month's investment return plus the
(negative) budget. -/
theorem c5_deficit_from_investments (fin : FinancialStrategyParams)
    (income_increase expense_increase house_value_increase : ℚ)
    (bc : BudgetCalculatorState) (housing : Housing)
    (savings investments liabilities : ℚ) (month : ℕ) (res : MonthResult)
    (h : month_body fin income_increase expense_increase house_value_increase
      bc housing savings investments liabilities month = .ok res)
    (hneg : res.record.cashflow < 0) :
    res.savings = savings ∧
    res.investments = investments + res.record.investment_returns +
      res.record.cashflow := by
  simp only [month_body] at h
  obtain ⟨h2, hup, h⟩ := except_bind_ok _ _ _ h
  obtain ⟨budget, hbud, h⟩ := except_bind_ok _ _ _ h
  obtain ⟨hc, hhc, h⟩ := except_bind_ok _ _ _ h
  injection h with hres
  subst hres
  dsimp only at hneg ⊢
  rw [if_neg (not_le.2 hneg), if_neg (not_le.2 hneg)]
  exact ⟨rfl, rfl⟩

/-- Witness for C5: a rent month with salary 0, rent 10 (budget −10). -/
theorem c5_deficit_from_investments_witness :
    month_body { savings_rate := 0, investments_rate := 1, monthly_return_rate := 0 }
      0 0 0
      { salary := 0, other_income := 0, daily_living_expense := 0, other_expenses := 0 }
      (.rent { rent := 10 }) 5 20 0 1 = .ok c5_res ∧
    c5_res.record.cashflow < 0 ∧
    (c5_res.savings = 5 ∧
      c5_res.investments = 20 + c5_res.record.investment_returns +
        c5_res.record.cashflow) :=
  ⟨by decide, by decide,
   c5_deficit_from_investments
     { savings_rate := 0, investments_rate := 1, monthly_return_rate := 0 } 0 0 0
     { salary := 0, other_income := 0, daily_living_expense := 0, other_expenses := 0 }
     (.rent { rent := 10 }) 5 20 0 1 c5_res (by decide) (by decide)⟩

lemma housing_phase_update_owned_error (h : Housing) (howned : h.is_owned = true) :
    ∃ e, housing_phase_update h = .error e := by
  have hmem1 : ("set_yearly_cost") ∉ mortgage_class_methods := by decide
  have hmem2 : ("set_yearly_cost") ∉ preselling_class_methods := by decide
  cases h with
  | rent s => exact absurd howned (by simp [Housing.is_owned])
  | mortgage s =>
      cases hset : s.set_ammortization with
      | error e =>
          refine ⟨e, ?_⟩
          unfold housing_phase_update
          simp only [Housing.is_owned, if_true]
          show (s.set_ammortization.map Housing.mortgage) >>= _ = _
          rw [hset]
          rfl
      | ok s2 =>
          refine ⟨.attributeError ("set_yearly_cost"), ?_⟩
          unfold housing_phase_update
          simp only [Housing.is_owned, if_true]
          show (s.set_ammortization.map Housing.mortgage) >>= _ = _
          rw [hset]
          have hmem : ("set_yearly_cost") ∉ (Housing.mortgage s2).class_methods := hmem1
          show (if ("set_yearly_cost") ∈ (Housing.mortgage s2).class_methods
              then Except.ok (Housing.mortgage s2)
              else Except.error (PyErr.attributeError ("set_yearly_cost"))) =
            Except.error (PyErr.attributeError ("set_yearly_cost"))
          rw [if_neg hmem]
  | preselling s =>
      cases hset : s.set_ammortization with
      | error e =>
          refine ⟨e, ?_⟩
          unfold housing_phase_update
          simp only [Housing.is_owned, if_true]
          show (s.set_ammortization.map Housing.preselling) >>= _ = _
          rw [hset]
          rfl
      | ok s2 =>
          refine ⟨.attributeError ("set_yearly_cost"), ?_⟩
          unfold housing_phase_update
          simp only [Housing.is_owned, if_true]
          show (s.set_ammortization.map Housing.preselling) >>= _ = _
          rw [hset]
          have hmem : ("set_yearly_cost") ∉ (Housing.preselling s2).class_methods := hmem2
          show (if ("set_yearly_cost") ∈ (Housing.preselling s2).class_methods
              then Except.ok (Housing.preselling s2)
              else Except.error (PyErr.attributeError ("set_yearly_cost"))) =
            Except.error (PyErr.attributeError ("set_yearly_cost"))
          rw [if_neg hmem]

lemma month_body_owned_error (fin : FinancialStrategyParams)
    (income_increase expense_increase house_value_increase : ℚ)
    (bc : BudgetCalculatorState) (h : Housing)
    (savings investments liabilities : ℚ) (month : ℕ)
    (howned : h.is_owned = true) :
    ∃ e, month_body fin income_increase expense_increase house_value_increase
      bc h savings investments liabilities month = .error e := by
  have h1owned : (if month % 12 = 1 ∧ 1 < month
      then h.annual_update house_value_increase expense_increase else h).is_owned = true := by
    split_ifs
    · cases h <;> simp_all [Housing.annual_update, Housing.is_owned]
    · exact howned
  obtain ⟨e, he⟩ := housing_phase_update_owned_error _ h1owned
  refine ⟨e, ?_⟩
  simp only [month_body]
  rw [he]
  rfl

lemma projection_loop_first_error (fin : FinancialStrategyParams)
    (income_increase expense_increase house_value_increase : ℚ)
    (bc : BudgetCalculatorState) (h : Housing)
    (savings investments liabilities : ℚ) (month k : ℕ)
    (acc : List ProjectionRecord) (e : PyErr)
    (he : month_body fin income_increase expense_increase house_value_increase
      bc h savings investments liabilities month = .error e) :
    projection_loop fin income_increase expense_increase house_value_increase
      bc h savings investments liabilities month (k + 1) acc = .error e := by
  show (month_body fin income_increase expense_increase house_value_increase
      bc h savings investments liabilities month >>= _) = .error e
  rw [he]
  rfl

lemma month_body_rent (fin : FinancialStrategyParams)
    (income_increase expense_increase house_value_increase : ℚ)
    (bc : BudgetCalculatorState) (rs : RentStrategy)
    (savings investments liabilities : ℚ) (month : ℕ) :
    ∃ bc2 rs2 sav2 inv2 rec,
      month_body fin income_increase expense_increase house_value_increase
        bc (.rent rs) savings investments liabilities month =
        .ok ⟨bc2, .rent rs2, sav2, inv2, rec⟩ := by
  simp only [month_body]
  by_cases hc : month % 12 = 1 ∧ 1 < month
  · rw [if_pos hc, if_pos hc]
    exact ⟨_, _, _, _, _, rfl⟩
  · rw [if_neg hc, if_neg hc]
    exact ⟨_, _, _, _, _, rfl⟩

lemma rent_loop_ok (fin : FinancialStrategyParams)
    (income_increase expense_increase house_value_increase : ℚ) :
    ∀ (k month : ℕ) (bc : BudgetCalculatorState) (rs : RentStrategy)
      (savings investments liabilities : ℚ) (acc : List ProjectionRecord),
      ∃ bc2 rs2 recs,
        projection_loop fin income_increase expense_increase house_value_increase
          bc (.rent rs) savings investments liabilities month k acc =
          .ok (bc2, .rent rs2, recs) ∧ recs.length = acc.length + k := by
  intro k
  induction k with
  | zero =>
      intro month bc rs sav inv liab acc
      exact ⟨bc, rs, acc, rfl, by simp⟩
  | succ k ih =>
      intro month bc rs sav inv liab acc
      obtain ⟨bc2, rs2, sav2, inv2, rec, hbody⟩ :=
        month_body_rent fin income_increase expense_increase house_value_increase
          bc rs sav inv liab month
      obtain ⟨bc3, rs3, recs, hloop, hlen⟩ :=
        ih (month + 1) bc2 rs2 sav2 inv2 liab (acc ++ [rec])
      refine ⟨bc3, rs3, recs, ?_, ?_⟩
      · show (month_body fin income_increase expense_increase house_value_increase
            bc (.rent rs) sav inv liab month >>= _) = _
        rw [hbody]
        exact hloop
      · rw [hlen]
        simp
        omega

/-- Claim C4 (confirmed): `BudgetCalculator.calculate_financial_projection`
fails during its first simulated month for every Mortgage or Preselling
strategy — the loop calls `housing.set_yearly_cost()`, a method neither
class defines — while a Rent strategy always yields a complete projection
of exactly `months` records. -/
theorem c4_owned_projection_fails :
    (("set_yearly_cost") ∉ mortgage_class_methods ∧
      ("set_yearly_cost") ∉ preselling_class_methods) ∧
    (∀ (fin : FinancialStrategyParams) (income_increase expense_increase
        house_value_increase : ℚ) (bc : BudgetCalculatorState)
        (ms : MortgageStrategy) (savings investments liabilities : ℚ) (months : ℕ),
      1 ≤ months → ∃ e,
        calculate_financial_projection fin bc (.mortgage ms) savings investments
          liabilities months income_increase expense_increase house_value_increase =
          .error e ∧
        calculate_financial_projection fin bc (.mortgage ms) savings investments
          liabilities 1 income_increase expense_increase house_value_increase =
          .error e) ∧
    (∀ (fin : FinancialStrategyParams) (income_increase expense_increase
        house_value_increase : ℚ) (bc : BudgetCalculatorState)
        (ps : PresellingStrategy) (savings investments liabilities : ℚ) (months : ℕ),
      1 ≤ months → ∃ e,
        calculate_financial_projection fin bc (.preselling ps) savings investments
          liabilities months income_increase expense_increase house_value_increase =
          .error e ∧
        calculate_financial_projection fin bc (.preselling ps) savings investments
          liabilities 1 income_increase expense_increase house_value_increase =
          .error e) ∧
    (∀ (fin : FinancialStrategyParams) (income_increase expense_increase
        house_value_increase : ℚ) (bc : BudgetCalculatorState) (rs : RentStrategy)
        (savings investments liabilities : ℚ) (months : ℕ),
      ∃ bc2 rs2 recs,
        calculate_financial_projection fin bc (.rent rs) savings investments
          liabilities months income_increase expense_increase house_value_increase =
          .ok (bc2, .rent rs2, recs) ∧ recs.length = months) := by
  refine ⟨⟨by decide, by decide⟩, ?_, ?_, ?_⟩
  · intro fin inc ex hvi bc ms sav inv liab months hm
    obtain ⟨e, he⟩ := month_body_owned_error fin inc ex hvi bc (.mortgage ms)
      sav inv liab 1 rfl
    obtain ⟨k, hk⟩ := Nat.exists_eq_add_of_le hm
    refine ⟨e, ?_, ?_⟩
    · rw [hk]
      show projection_loop fin inc ex hvi bc (.mortgage ms) sav inv liab 1 (1 + k) [] =
        .error e
      rw [Nat.add_comm 1 k]
      exact projection_loop_first_error fin inc ex hvi bc (.mortgage ms)
        sav inv liab 1 k [] e he
    · exact projection_loop_first_error fin inc ex hvi bc (.mortgage ms)
        sav inv liab 1 0 [] e he
  · intro fin inc ex hvi bc ps sav inv liab months hm
    obtain ⟨e, he⟩ := month_body_owned_error fin inc ex hvi bc (.preselling ps)
      sav inv liab 1 rfl
    obtain ⟨k, hk⟩ := Nat.exists_eq_add_of_le hm
    refine ⟨e, ?_, ?_⟩
    · rw [hk]
      show projection_loop fin inc ex hvi bc (.preselling ps) sav inv liab 1 (1 + k) [] =
        .error e
      rw [Nat.add_comm 1 k]
      exact projection_loop_first_error fin inc ex hvi bc (.preselling ps)
        sav inv liab 1 k [] e he
    · exact projection_loop_first_error fin inc ex hvi bc (.preselling ps)
        sav inv liab 1 0 [] e he
  · intro fin inc ex hvi bc rs sav inv liab months
    obtain ⟨bc2, rs2, recs, hloop, hlen⟩ :=
      rent_loop_ok fin inc ex hvi months 1 bc rs sav inv liab []
    exact ⟨bc2, rs2, recs, hloop, by simpa using hlen⟩

/-- Witness for C4 at concrete strategies with 2 simulated months. -/
theorem c4_owned_projection_fails_witness :
    (1 : ℕ) ≤ 2 ∧
    (∃ e, calculate_financial_projection
        { savings_rate := 0, investments_rate := 1, monthly_return_rate := 0 }
        { salary := 100, other_income := 0, daily_living_expense := 0,
          other_expenses := 0 }
        (.mortgage (mkMortgage 1000 200 12 (12/100) 0 0)) 0 0 0 2 0 0 0 = .error e ∧
      calculate_financial_projection
        { savings_rate := 0, investments_rate := 1, monthly_return_rate := 0 }
        { salary := 100, other_income := 0, daily_living_expense := 0,
          other_expenses := 0 }
        (.mortgage (mkMortgage 1000 200 12 (12/100) 0 0)) 0 0 0 1 0 0 0 = .error e) ∧
    (∃ e, calculate_financial_projection
        { savings_rate := 0, investments_rate := 1, monthly_return_rate := 0 }
        { salary := 100, other_income := 0, daily_living_expense := 0,
          other_expenses := 0 }
        (.preselling (mkPreselling 1000 100 800 160 12 (12/100) 0 0)) 0 0 0 2 0 0 0 =
          .error e ∧
      calculate_financial_projection
        { savings_rate := 0, investments_rate := 1, monthly_return_rate := 0 }
        { salary := 100, other_income := 0, daily_living_expense := 0,
          other_expenses := 0 }
        (.preselling (mkPreselling 1000 100 800 160 12 (12/100) 0 0)) 0 0 0 1 0 0 0 =
          .error e) ∧
    (∃ bc2 rs2 recs, calculate_financial_projection
        { savings_rate := 0, investments_rate := 1, monthly_return_rate := 0 }
        { salary := 100, other_income := 0, daily_living_expense := 0,
          other_expenses := 0 }
        (.rent { rent := 10 }) 0 0 0 2 0 0 0 = .ok (bc2, .rent rs2, recs) ∧
      recs.length = 2) :=
  ⟨by decide,
   c4_owned_projection_fails.2.1
     { savings_rate := 0, investments_rate := 1, monthly_return_rate := 0 } 0 0 0
     { salary := 100, other_income := 0, daily_living_expense := 0, other_expenses := 0 }
     (mkMortgage 1000 200 12 (12/100) 0 0) 0 0 0 2 (by decide),
   c4_owned_projection_fails.2.2.1
     { savings_rate := 0, investments_rate := 1, monthly_return_rate := 0 } 0 0 0
     { salary := 100, other_income := 0, daily_living_expense := 0, other_expenses := 0 }
     (mkPreselling 1000 100 800 160 12 (12/100) 0 0) 0 0 0 2 (by decide),
   c4_owned_projection_fails.2.2.2
     { savings_rate := 0, investments_rate := 1, monthly_return_rate := 0 } 0 0 0
     { salary := 100, other_income := 0, daily_living_expense := 0, other_expenses := 0 }
     { rent := 10 } 0 0 0 2⟩

/-- Claim C10 counterexample: two successive calls of
`calculate_financial_projection` with identical arguments (identical
starting balances, months = 13, identical growth rates) produce different
record sequences, because the first call mutates the calculator's income
fields: the first run's month-1 cashflow is 90, the second run's is 190. -/
theorem c10_counterexample :
    (c10_two_runs.map fun pr => pr.1.head?.map ProjectionRecord.cashflow) =
      .ok (some 90) ∧
    (c10_two_runs.map fun pr => pr.2.head?.map ProjectionRecord.cashflow) =
      .ok (some 190) ∧
    (c10_two_runs.map fun pr => decide (pr.1 = pr.2)) = .ok false := by
  refine ⟨by decide, by decide, by decide⟩

/-- Claim C10 (corrected): the projection is a pure function of the full
starting state, so two runs agree whenever the calculator fields and the
housing strategy (the state the method mutates) are identical in addition
to the explicit arguments; re-running on the same objects after a prior
run is not covered, because the method mutates them. -/
theorem c10_deterministic_from_state (fin : FinancialStrategyParams)
    (bc bc' : BudgetCalculatorState) (housing housing' : Housing)
    (savings investments liabilities : ℚ) (months : ℕ)
    (income_increase expense_increase house_value_increase : ℚ)
    (hbc : bc = bc') (hh : housing = housing') :
    calculate_financial_projection fin bc housing savings investments liabilities
      months income_increase expense_increase house_value_increase =
    calculate_financial_projection fin bc' housing' savings investments liabilities
      months income_increase expense_increase house_value_increase := by
  subst hbc
  subst hh
  rfl

/-- Witness for C10's corrected statement at the concrete C10 scenario. -/
theorem c10_deterministic_from_state_witness :
    c10_bc0 = c10_bc0 ∧ c10_housing0 = c10_housing0 ∧
    calculate_financial_projection c10_params c10_bc0 c10_housing0 0 0 0 13 1 0 0 =
    calculate_financial_projection c10_params c10_bc0 c10_housing0 0 0 0 13 1 0 0 :=
  ⟨rfl, rfl,
   c10_deterministic_from_state c10_params c10_bc0 c10_bc0 c10_housing0 c10_housing0
     0 0 0 13 1 0 0 rfl rfl⟩

lemma iterate_apply_monthly (m : ℝ) : ∀ (n : ℕ) (b : ℝ),
    (apply_monthly_return m)^[n] b = b * (1 + m) ^ n := by
  intro n
  induction n with
  | zero => intro b; simp
  | succ n ih =>
      intro b
      rw [Function.iterate_succ_apply, ih]
      unfold apply_monthly_return
      ring

lemma rpow_twelfth (r : ℝ) (hr : -1 ≤ r) :
    ((1 + r) ^ ((1:ℝ)/12)) ^ (12 : ℕ) = 1 + r := by
  have h0 : (0:ℝ) ≤ 1 + r := by linarith
  rw [← Real.rpow_natCast ((1 + r) ^ ((1:ℝ)/12)) 12, ← Real.rpow_mul h0]
  norm_num

/-- Claim C8 (confirmed): both investment strategies convert the
(risk-adjusted) annual rate `r` to the effective monthly rate
`(1+r)^(1/12) - 1`, and applying `calculate_monthly_return` and adding it
to the balance twelve times with zero contributions multiplies any
starting balance by exactly `1 + r`. -/
theorem c8_monthly_rate_compounds (r b x : ℝ) (lvl : String) (mult : ℚ)
    (hr : -1 ≤ r) (hm : risk_multipliers lvl = some mult)
    (hadj : -1 ≤ r * (mult : ℝ)) :
    (apply_monthly_return (BasicInvestmentStrategy.monthly_return_rate r))^[12] b =
      b * (1 + r) ∧
    RiskAdjustedStrategy.monthly_return_rate r lvl =
      some ((1 + r * (mult : ℝ)) ^ ((1:ℝ)/12) - 1) ∧
    RiskAdjustedStrategy.calculate_monthly_return r lvl x =
      some (x * ((1 + r * (mult : ℝ)) ^ ((1:ℝ)/12) - 1)) ∧
    (apply_monthly_return ((1 + r * (mult : ℝ)) ^ ((1:ℝ)/12) - 1))^[12] b =
      b * (1 + r * (mult : ℝ)) := by
  have key : ∀ s : ℝ, -1 ≤ s →
      (apply_monthly_return ((1 + s) ^ ((1:ℝ)/12) - 1))^[12] b = b * (1 + s) := by
    intro s hs
    rw [iterate_apply_monthly]
    have hone : (1 : ℝ) + ((1 + s) ^ ((1:ℝ)/12) - 1) = (1 + s) ^ ((1:ℝ)/12) := by ring
    rw [hone, rpow_twelfth s hs]
  refine ⟨?_, ?_, ?_, key _ hadj⟩
  · simpa [BasicInvestmentStrategy.monthly_return_rate] using key r hr
  · unfold RiskAdjustedStrategy.monthly_return_rate
    rw [hm]
    rfl
  · unfold RiskAdjustedStrategy.calculate_monthly_return
      RiskAdjustedStrategy.monthly_return_rate
    rw [hm]
    rfl

/-- Witness for C8 at `r = 0`, balance 1, risk level conservative. -/
theorem c8_monthly_rate_compounds_witness :
    (-1 : ℝ) ≤ 0 ∧ risk_multipliers ("conservative") = some (7/10) ∧
    (-1 : ℝ) ≤ 0 * ((7/10 : ℚ) : ℝ) ∧
    ((apply_monthly_return (BasicInvestmentStrategy.monthly_return_rate 0))^[12] 1 =
      1 * (1 + 0) ∧
    RiskAdjustedStrategy.monthly_return_rate 0 ("conservative") =
      some ((1 + 0 * ((7/10 : ℚ) : ℝ)) ^ ((1:ℝ)/12) - 1) ∧
    RiskAdjustedStrategy.calculate_monthly_return 0 ("conservative") 1 =
      some (1 * ((1 + 0 * ((7/10 : ℚ) : ℝ)) ^ ((1:ℝ)/12) - 1)) ∧
    (apply_monthly_return ((1 + 0 * ((7/10 : ℚ) : ℝ)) ^ ((1:ℝ)/12) - 1))^[12] 1 =
      1 * (1 + 0 * ((7/10 : ℚ) : ℝ))) :=
  ⟨by norm_num, by decide, by norm_num,
   c8_monthly_rate_compounds 0 1 1 ("conservative") (7/10) (by norm_num) (by decide)
     (by norm_num)⟩

lemma preselling_step (hv psdp lump ldp : ℚ) (term : ℕ) (r tax maint : ℚ)
    (hr : 0 < r) (hterm : 1 ≤ term) (k : ℕ) :
    (preselling_phase_state hv psdp lump ldp term r tax maint k).set_ammortization =
      .ok (preselling_phase_state hv psdp lump ldp term r tax maint (k + 1)) := by
  unfold preselling_phase_state PresellingStrategy.set_ammortization
    PresellingStrategy.create_ammortization_schedule
  dsimp only
  by_cases hA : 60 + term + 1 < k
  · rw [if_pos hA]
    refine congrArg Except.ok ?_
    simp only [Nat.add_sub_cancel, preselling_expected_ammortization,
      if_neg (show ¬ k + 1 = 0 by omega),
      if_pos (show 60 + term + 1 < k by omega),
      if_neg (show ¬ k ≤ 61 by omega),
      if_neg (show ¬ k + 1 ≤ 61 by omega)]
  rw [if_neg hA]
  by_cases h0 : k = 0
  · rw [if_pos h0]
    subst h0
    refine congrArg Except.ok ?_
    simp [Nat.add_sub_cancel, preselling_expected_ammortization,
      if_neg (show ¬ 0 + 1 = 0 by omega),
      if_neg (show ¬ 60 + term + 1 < 0 by omega),
      if_pos (show (0 : ℕ) ≤ 61 by omega),
      if_pos (show 0 + 1 ≤ 61 by omega)]
  rw [if_neg h0]
  by_cases h24 : k ≤ 24
  · rw [if_pos h24]
    refine congrArg Except.ok ?_
    simp only [Nat.add_sub_cancel, preselling_expected_ammortization,
      if_neg (show ¬ k + 1 = 0 by omega),
      if_neg (show ¬ 60 + term + 1 < k by omega),
      if_neg (show ¬ k = 0 by omega),
      if_pos (show k ≤ 24 by omega),
      if_pos (show k ≤ 61 by omega),
      if_pos (show k + 1 ≤ 61 by omega)]
  rw [if_neg h24]
  by_cases h48 : k ≤ 48
  · rw [if_pos h48]
    refine congrArg Except.ok ?_
    simp only [Nat.add_sub_cancel, preselling_expected_ammortization,
      if_neg (show ¬ k + 1 = 0 by omega),
      if_neg (show ¬ 60 + term + 1 < k by omega),
      if_neg (show ¬ k = 0 by omega),
      if_neg (show ¬ k ≤ 24 by omega),
      if_pos (show k ≤ 48 by omega),
      if_pos (show k ≤ 61 by omega),
      if_pos (show k + 1 ≤ 61 by omega)]
  rw [if_neg h48]
  by_cases h60 : k ≤ 60
  · rw [if_pos h60]
    refine congrArg Except.ok ?_
    simp only [Nat.add_sub_cancel, preselling_expected_ammortization,
      if_neg (show ¬ k + 1 = 0 by omega),
      if_neg (show ¬ 60 + term + 1 < k by omega),
      if_neg (show ¬ k = 0 by omega),
      if_neg (show ¬ k ≤ 24 by omega),
      if_neg (show ¬ k ≤ 48 by omega),
      if_pos (show k ≤ 60 by omega),
      if_pos (show k ≤ 61 by omega),
      if_pos (show k + 1 ≤ 61 by omega)]
  rw [if_neg h60]
  by_cases h61 : k = 61
  · rw [if_pos h61]
    subst h61
    rw [calc_schedule_nat lump r term hr hterm]
    dsimp only [Except.map]
    refine congrArg Except.ok ?_
    simp [Nat.add_sub_cancel, preselling_expected_ammortization,
      if_neg (show ¬ 61 + 1 = 0 by omega),
      if_neg (show ¬ 60 + term + 1 < 61 by omega),
      if_neg (show ¬ 61 + 1 ≤ 61 by omega)]
  rw [if_neg h61]
  obtain ⟨t, ht⟩ : ∃ t, term = t + 1 := ⟨term - 1, by omega⟩
  rw [if_neg (show ¬ k ≤ 61 by omega)]
  dsimp only
  rw [ht, amortLoop_head]
  dsimp only
  refine congrArg Except.ok ?_
  simp only [Nat.add_sub_cancel, preselling_expected_ammortization,
    if_neg (show ¬ k + 1 = 0 by omega),
    if_neg (show ¬ 60 + (t + 1) + 1 < k by omega),
    if_neg (show ¬ k = 0 by omega),
    if_neg (show ¬ k ≤ 24 by omega),
    if_neg (show ¬ k ≤ 48 by omega),
    if_neg (show ¬ k ≤ 60 by omega),
    if_neg (show ¬ k = 61 by omega),
    if_neg (show ¬ k ≤ 61 by omega),
    if_neg (show ¬ k + 1 ≤ 61 by omega)]

lemma preselling_iter_closed (hv psdp lump ldp : ℚ) (term : ℕ) (r tax maint : ℚ)
    (hr : 0 < r) (hterm : 1 ≤ term) : ∀ k : ℕ,
    preselling_iter (mkPreselling hv psdp lump ldp term r tax maint) k =
      .ok (preselling_phase_state hv psdp lump ldp term r tax maint k) := by
  intro k
  induction k with
  | zero =>
      show Except.ok _ = _
      refine congrArg Except.ok ?_
      simp [mkPreselling, preselling_phase_state]
  | succ k ih =>
      show (preselling_iter _ k).bind _ = _
      rw [ih]
      show PresellingStrategy.set_ammortization _ = _
      exact preselling_step hv psdp lump ldp term r tax maint hr hterm k

/-- Claim C6 (confirmed): the preselling amortization component follows the
phase machine over the 0-based month counter — month 0 the preselling down
payment; months 1–24, 25–48, 49–60 the three fixed tier constants
52513.87 / 73519.42 / 168044.39; month 61 the loan down payment with the
schedule created at that moment against `lump_sum`; months 62 through
`60 + term + 1` the fixed schedule payment; later months 0. -/
theorem c6_preselling_phase_machine (hv psdp lump ldp : ℚ) (term : ℕ)
    (r tax maint : ℚ) (hr : 0 < r) (hterm : 1 ≤ term) (k : ℕ) :
    ∃ s, preselling_iter (mkPreselling hv psdp lump ldp term r tax maint) (k + 1) =
        .ok s ∧
      s.ammortization = some (preselling_expected_ammortization psdp ldp
        (round3 (annuity_monthly_payment lump (r / 12) term)) term k) ∧
      (61 ≤ k → s.principal = some lump ∧
        s.ammortization_schedule = some
          (amortLoop (r / 12) (annuity_monthly_payment lump (r / 12) term) lump 1 term) ∧
        calculate_ammortization_schedule lump r ((term : ℚ) / 12) = .ok
          (amortLoop (r / 12) (annuity_monthly_payment lump (r / 12) term) lump 1 term)) := by
  refine ⟨_, preselling_iter_closed hv psdp lump ldp term r tax maint hr hterm (k + 1),
    ?_, ?_⟩
  · unfold preselling_phase_state
    dsimp only
    rw [if_neg (show ¬ k + 1 = 0 by omega), Nat.add_sub_cancel]
  · intro h61
    unfold preselling_phase_state
    dsimp only
    rw [if_neg (show ¬ k + 1 ≤ 61 by omega), if_neg (show ¬ k + 1 ≤ 61 by omega)]
    exact ⟨rfl, rfl, calc_schedule_nat lump r term hr hterm⟩

/-- Witness for C6 at a concrete strategy, month 0 (term 1, rate 12%). -/
theorem c6_preselling_phase_machine_witness :
    (0 : ℚ) < 12/100 ∧ (1 : ℕ) ≤ 1 ∧
    (∃ s, preselling_iter (mkPreselling 1000 100 900 180 1 (12/100) 0 0) (0 + 1) =
        .ok s ∧
      s.ammortization = some (preselling_expected_ammortization 100 180
        (round3 (annuity_monthly_payment 900 (12/100 / 12) 1)) 1 0) ∧
      (61 ≤ 0 → s.principal = some 900 ∧
        s.ammortization_schedule = some
          (amortLoop (12/100 / 12) (annuity_monthly_payment 900 (12/100 / 12) 1) 900 1 1) ∧
        calculate_ammortization_schedule 900 (12/100) (((1 : ℕ) : ℚ) / 12) = .ok
          (amortLoop (12/100 / 12) (annuity_monthly_payment 900 (12/100 / 12) 1) 900 1 1))) :=
  ⟨by decide, by decide,
   c6_preselling_phase_machine 1000 100 900 180 1 (12/100) 0 0 (by decide) (by decide) 0⟩
